import Mathlib

/-!
# Verification of `uninstall.py`

A shallow embedding of the repository's single source file `uninstall.py`,
a CLI tool that reads EC2 instance ids from a CSV manifest, validates them
against AWS SSM (`describe_instance_information`, paginated, chunks of 100,
keeping ids whose `PingStatus` is `"Online"`), and dispatches
`send_command` uninstall requests in batches of 50, in either `distributor`
or `powershell` mode.

External effects (the SSM client, the log file, `sys.exit`) are modelled
explicitly: provider responses are supplied as oracles/scripts, log lines
are accumulated in output records, and `sys.exit(1)` is an `exited` flag /
`exitCode` field that stops all further processing.
-/

namespace Uninstall

/-- Severity levels used by the script's `logging` calls. -/
inductive LogLevel
  | info
  | warning
  | error
deriving DecidableEq, Repr

/-- One line written to `uninstall.log`: a severity and the formatted message. -/
structure LogLine where
  level : LogLevel
  msg : String
deriving DecidableEq, Repr

/-- Python `str` of a list of strings, as used by `str(batch)` /
`str(instance_ids)` in the log format strings: `['a', 'b']`. -/
def pyStrList (l : List String) : String :=
  "[" ++ String.intercalate ", " (l.map (fun s => "\x27" ++ s ++ "\x27")) ++ "]"

/-- Fuelled form of the slicing loop
`for i in range(0, len(items), bs): items[i:i+bs]`: every iteration with a
non-empty remainder emits the slice `items[i:i+bs]` and moves on by `bs`.
The fuel only bounds the number of iterations so that the recursion is
structural; `chunkList` below supplies enough fuel for the whole list. -/
def chunkListF (bs : Nat) : Nat → List α → List (List α)
  | _, [] => []
  | 0, _ :: _ => []
  | fuel + 1, a :: l' => (a :: l').take bs :: chunkListF bs fuel ((a :: l').drop bs)

/-- The slicing loop `for i in range(0, len(items), bs): items[i:i+bs]`
 used both by `uninstall_package` (bs = 50) and `check_instances`
 (bs = 100), with `bs ≥ 1` as in both call sites. -/
def chunkList (bs : Nat) (l : List α) : List (List α) :=
  chunkListF bs l.length l

/-! ## Instance validation: `check_instances` (lines 125-174)

The SSM client is modelled as a script of responses: each
`describe_instance_information` call consumes the next `PageResult` of the
current chunk's script.  A `page` carries the `InstanceInformationList`
and whether the response contains a `NextToken`; `clientError` is a raised
`botocore` `ClientError`.  `sys.exit(1)` is the `exited` flag: once set,
nothing further runs. -/

/-- One entry of a `describe_instance_information` response's
`InstanceInformationList`. -/
structure InstanceInfo where
  instanceId : String
  pingStatus : String
deriving DecidableEq, Repr

/-- The outcome of one `describe_instance_information` call: a response
page (with or without a `NextToken`), or a raised `ClientError`. -/
inductive PageResult
  | page (instances : List InstanceInfo) (hasNext : Bool)
  | clientError (msg : String)
deriving DecidableEq, Repr

/-- The loop body over `response['InstanceInformationList']`
(lines 154-161): `Online` ids are appended to `valid_ids` with an info
line, every other ping status gets a warning line. -/
def processInstance (inst : InstanceInfo) : List String × List LogLine :=
  if inst.pingStatus = "Online" then
    ([inst.instanceId],
     [⟨.info, "Valid instance found with ID " ++ inst.instanceId⟩])
  else
    ([],
     [⟨.warning, "Valid instance " ++ inst.instanceId ++ " is not online"⟩])

/-- Processing of one response page's `InstanceInformationList`, in order. -/
def processPage : List InstanceInfo → List String × List LogLine
  | [] => ([], [])
  | inst :: rest =>
    let r := processInstance inst
    let rs := processPage rest
    (r.1 ++ rs.1, r.2 ++ rs.2)

/-- The result of running (part of) `check_instances`: accumulated
`valid_ids`, log lines, the number of `describe_instance_information`
calls issued, and whether `sys.exit(1)` was reached. -/
structure CheckOut where
  validIds : List String
  logs : List LogLine
  calls : Nat
  exited : Bool
deriving DecidableEq, Repr

/-- The `while True` pagination loop of `check_instances` (lines 141-170)
for one chunk of at most 100 ids: issue a call, process the page, and go
round again exactly when the response carried a `NextToken`; a
`ClientError` logs at error severity and exits the process. -/
def paginate : List PageResult → CheckOut
  | [] => ⟨[], [], 0, false⟩
  | .clientError e :: _ =>
    ⟨[], [⟨.error, "Error processing instance: " ++ e⟩], 1, true⟩
  | .page instances hasNext :: rest =>
    let r := processPage instances
    if hasNext then
      let out := paginate rest
      ⟨r.1 ++ out.validIds, r.2 ++ out.logs, out.calls + 1, out.exited⟩
    else
      ⟨r.1, r.2, 1, false⟩

/-- The outer loop of `check_instances` (line 138): one pagination loop
per 100-id chunk, stopping dead if a chunk exits the process.  The chunk
contents are only what the filter value-list of each request carries; the
responses come from the per-chunk scripts. -/
def runChunks : List (List String) → List (List PageResult) → CheckOut
  | [], _ => ⟨[], [], 0, false⟩
  | _ :: chunks, scripts =>
    let out := paginate (scripts.headD [])
    if out.exited then out
    else
      let rest := runChunks chunks scripts.tail
      ⟨out.validIds ++ rest.validIds, out.logs ++ rest.logs,
       out.calls + rest.calls, rest.exited⟩

/-- The entry info line of `check_instances` (line 136) and, when no
`ClientError` exited the process, the summary info line of lines 172-173,
wrapped around the chunk loop's log output. -/
def wrapLogs (instance_ids : List String) (out : CheckOut) : CheckOut :=
  let enter : LogLine :=
    ⟨.info, "Checking " ++ pyStrList instance_ids ++ " instance ID(s)"⟩
  if out.exited then
    { out with logs := enter :: out.logs }
  else
    { out with
      logs := enter :: out.logs ++
        [⟨.info, "Found " ++ toString out.validIds.length ++
          " valid ID(s) out of " ++ toString instance_ids.length⟩] }

/-- Model of `check_instances` (lines 125-174): chunk the candidate ids
by 100, run the pagination loop per chunk, and wrap with the
entry/summary info lines. -/
def check_instances (instance_ids : List String)
    (scripts : List (List PageResult)) : CheckOut :=
  wrapLogs instance_ids (runChunks (chunkList 100 instance_ids) scripts)

/-! ## Dispatch: `process_batch` and `uninstall_package` (lines 56-122) -/

/-- The `--mode` choices (line 41). -/
inductive Mode
  | distributor
  | powershell
deriving DecidableEq, Repr

/-- The mode string as interpolated into the log line. -/
def modeStr : Mode → String
  | .distributor => "distributor"
  | .powershell => "powershell"

/-- The CloudWatch log-group name computed by the f-string
`f"/tm/\x7bPACKAGE_NAME.lower().replace(' ', '-')\x7dUninstall"`
(lines 92 and 114).  Python's `str.lower` / single-char `str.replace`
are per-character maps (`Char.toLower` models `lower` for the ASCII
package names at issue). -/
def pyLower (s : String) : String := ⟨s.data.map Char.toLower⟩

/-- Python `.replace(' ', '-')`: replacing a one-character substring is a
per-character map. -/
def pyReplaceSpaceDash (s : String) : String :=
  ⟨s.data.map (fun c => if c = ' ' then '-' else c)⟩

def logGroupName (packageName : String) : String :=
  "/tm/" ++ pyReplaceSpaceDash (pyLower packageName) ++ "Uninstall"

/-- The fixed inline script sent in powershell mode (lines 100-110),
verbatim. -/
def powershellCommands : List String :=
  ["$agentInstalled = Get-WmiObject -Class Win32_Product | Where-Object \x7b$_.Name -eq \"Rapid7 Insight Agent\"\x7d",
   "if ($agentInstalled) \x7b",
   "    $uninstallResult = msiexec.exe /x $($agentInstalled.IdentifyingNumber) /qn",
   "    if ($LASTEXITCODE -ne 0) \x7b",
   "        Write-Output \"Failed to uninstall Rapid7 Insight Agent. Exit code: $LASTEXITCODE\"",
   "    \x7d",
   "\x7d else \x7b",
   "    Write-Output \"Rapid7 Insight Agent is not installed.\"",
   "\x7d"]

/-- The `CloudWatchOutputConfig` argument of `send_command`. -/
structure CloudWatchOutputConfig where
  cloudWatchOutputEnabled : Bool
  cloudWatchLogGroupName : String
deriving DecidableEq, Repr

/-- One `ssm.send_command` request: target ids, document name, the
`Parameters` dict (keys to value lists), and output routing. -/
structure SendCommandRequest where
  instanceIds : List String
  documentName : String
  parameters : List (String × List String)
  cloudWatchOutputConfig : CloudWatchOutputConfig
deriving DecidableEq, Repr

/-- The request `process_batch` builds for a batch (lines 82-116),
per mode. -/
def buildRequest (mode : Mode) (packageName : String)
    (batch : List String) : SendCommandRequest :=
  match mode with
  | .distributor =>
    { instanceIds := batch
      documentName := "AWS-ConfigureAWSPackage"
      parameters := [("action", ["Uninstall"]), ("name", [packageName])]
      cloudWatchOutputConfig :=
        { cloudWatchOutputEnabled := true
          cloudWatchLogGroupName := logGroupName packageName } }
  | .powershell =>
    { instanceIds := batch
      documentName := "AWS-RunPowerShellScript"
      parameters := [("commands", powershellCommands)]
      cloudWatchOutputConfig :=
        { cloudWatchOutputEnabled := true
          cloudWatchLogGroupName := logGroupName packageName } }

/-- What a `send_command` call comes back with: the command id and status
extracted on lines 117-118 (after the `.get` defaults), or a raised
`ClientError`. -/
structure CommandResult where
  commandId : String
  status : String
deriving DecidableEq, Repr

inductive SendOutcome
  | ok (r : CommandResult)
  | clientError (msg : String)
deriving DecidableEq, Repr

/-- A send oracle whose second call (index 1) raises a `ClientError`,
for concrete error-propagation runs. -/
def sendFailsSecond : Nat → SendOutcome
  | 1 => .clientError "boom"
  | _ => .ok ⟨"cid", "Pending"⟩

/-- Result of the dispatch loop: the `send_command` requests actually
issued (in order), the log lines, and `some 1` when `sys.exit(1)` ran. -/
structure DispatchOut where
  requests : List SendCommandRequest
  logs : List LogLine
  exitCode : Option Nat
deriving Repr

/-- The sequential dispatch loop: `process_batch` (lines 70-122) applied
to each batch in order, numbering the `send_command` calls so the oracle
`send` can fail a specific one.  A `ClientError` logs at error severity
and exits the process, so later batches are never reached. -/
def dispatchBatches (mode : Mode) (packageName : String)
    (send : Nat → SendOutcome) : Nat → List (List String) → DispatchOut
  | _, [] => ⟨[], [], none⟩
  | k, batch :: rest =>
    let req := buildRequest mode packageName batch
    let enter : LogLine :=
      ⟨.info, "Uninstalling " ++ packageName ++ " using " ++ modeStr mode ++
        " from instance IDs: " ++ pyStrList batch⟩
    match send k with
    | .ok r =>
      let out := dispatchBatches mode packageName send (k + 1) rest
      ⟨req :: out.requests,
       enter :: ⟨.info, "Command ID: " ++ r.commandId ++ " Status: " ++ r.status⟩ :: out.logs,
       out.exitCode⟩
    | .clientError e =>
      ⟨[req], [enter, ⟨.error, "Error processing batch: " ++ e⟩], some 1⟩

/-- Model of `uninstall_package` (lines 56-67): slice the validated ids into
batches of 50 and `process_batch` each in order. -/
def uninstall_package (mode : Mode) (packageName : String)
    (items : List String) (send : Nat → SendOutcome) : DispatchOut :=
  dispatchBatches mode packageName send 0 (chunkList 50 items)

/-! ## Manifest loading (lines 179-182)

A parsed CSV file is a list of rows, each row a list of fields.
`csv.reader` turns a blank line into `[]` and a line starting with a
comma into a row whose first field is `""`. -/

/-- The manifest loading block:
`next(reader, None)` skips the first row (a no-op on an empty file), and
`\x7brow[0] for row in reader if row\x7d` collects the first field of
every remaining non-empty row into a set.  The Python set is modelled as
a duplicate-free list (`dedup`); its iteration order is unspecified in
the source, and no claim depends on it. -/
def loadManifest (rows : List (List String)) : List String :=
  ((rows.tail.filter (fun row => !row.isEmpty)).filterMap List.head?).dedup

/-! ## CLI intake (lines 32-49) and the `__main__` pipeline (lines 177-193) -/

/-- Which options an invocation supplies: the positional manifest path,
`-p`/`--package-name`, and `-m`/`--mode` (as its raw string). -/
structure Cmdline where
  resourceIdFile : Option String
  packageName : Option String
  mode : Option String
deriving DecidableEq, Repr

inductive ParseOutcome
  | ok (file : String) (packageName : String) (mode : Mode)
  | usageExit (code : Nat)
deriving DecidableEq, Repr

/-- The argparse configuration of lines 32-45: a required positional
`resource_id_file`, a required `--package-name`, and a `--mode`
restricted to `choices=['distributor', 'powershell']` with default
`'distributor'`.  Python's `argparse` handles a missing required argument
or an invalid choice itself: it prints the usage text and terminates with
exit status 2 (its documented `parser.error` behaviour), so the
`sys.exit(1)` fallback on lines 47-49 is unreachable. -/
def parseArgs (c : Cmdline) : ParseOutcome :=
  match c.resourceIdFile, c.packageName with
  | some file, some pkg =>
    match c.mode with
    | none => .ok file pkg .distributor
    | some "distributor" => .ok file pkg .distributor
    | some "powershell" => .ok file pkg .powershell
    | some _ => .usageExit 2
  | _, _ => .usageExit 2

/-- Observable outcome of one whole process run. -/
structure ProgramOut where
  usagePrinted : Bool
  manifestOpened : Bool
  describeCalls : Nat
  requests : List SendCommandRequest
  logs : List LogLine
  exitCode : Option Nat
deriving Repr

/-- The `__main__` block (lines 177-193), after successful argument
parsing: load the manifest, validate the ids, exit 1 with a warning when
nothing is valid, otherwise dispatch the batches. -/
def mainRun (mode : Mode) (packageName : String) (rows : List (List String))
    (scripts : List (List PageResult)) (send : Nat → SendOutcome) :
    ProgramOut :=
  let candidates := loadManifest rows
  let chk := check_instances candidates scripts
  if chk.exited then
    { usagePrinted := false, manifestOpened := true,
      describeCalls := chk.calls, requests := [], logs := chk.logs,
      exitCode := some 1 }
  else if chk.validIds.isEmpty then
    { usagePrinted := false, manifestOpened := true,
      describeCalls := chk.calls, requests := [],
      logs := chk.logs ++ [⟨.warning, "No valid instances found"⟩],
      exitCode := some 1 }
  else
    let d := uninstall_package mode packageName chk.validIds send
    { usagePrinted := false, manifestOpened := true,
      describeCalls := chk.calls, requests := d.requests,
      logs := chk.logs ++ d.logs, exitCode := d.exitCode }

/-- One whole process run: module-level argument parsing happens before
the manifest is opened or any SSM client call is made, so a parse failure
produces usage output and an exit status with no other effect. -/
def runProgram (c : Cmdline) (rows : List (List String))
    (scripts : List (List PageResult)) (send : Nat → SendOutcome) :
    ProgramOut :=
  match parseArgs c with
  | .usageExit code =>
    { usagePrinted := true, manifestOpened := false, describeCalls := 0,
      requests := [], logs := [], exitCode := some code }
  | .ok _ pkg mode => mainRun mode pkg rows scripts send

/-- The instances the pagination loop actually processes from a chunk
script: every page up to and including the first one without a
`NextToken`; nothing of a call that raised, nor anything after it. -/
def pagesConsumed : List PageResult → List InstanceInfo
  | [] => []
  | .clientError _ :: _ => []
  | .page instances hasNext :: rest =>
    if hasNext then instances ++ pagesConsumed rest else instances

/-- All instances processed across the per-chunk pagination loops, chunk
by chunk (one script per chunk, a missing script meaning no response
data). -/
def seenInstances : List (List String) → List (List PageResult) → List InstanceInfo
  | [], _ => []
  | _ :: chunks, scripts =>
    pagesConsumed (scripts.headD []) ++ seenInstances chunks scripts.tail


/-! ## Lemmas about the batching loop -/

theorem chunkListF_fuel (bs : Nat) (hbs : bs ≠ 0) :
    ∀ (fuel fuel' : Nat) (l : List α), l.length ≤ fuel → l.length ≤ fuel' →
      chunkListF bs fuel l = chunkListF bs fuel' l := by
  intro fuel
  induction fuel with
  | zero =>
    intro fuel' l hl _
    have : l = [] := List.length_eq_zero.mp (Nat.le_zero.mp hl)
    subst this
    cases fuel' <;> rfl
  | succ n ih =>
    intro fuel' l hl hl'
    cases l with
    | nil => cases fuel' <;> rfl
    | cons a t =>
      cases fuel' with
      | zero => simp at hl'
      | succ m =>
        simp only [chunkListF]
        congr 1
        apply ih
        · simp only [List.length_drop, List.length_cons] at *
          omega
        · simp only [List.length_drop, List.length_cons] at *
          omega

theorem chunkList_nil (bs : Nat) : chunkList bs ([] : List α) = [] := rfl

theorem chunkList_cons (bs : Nat) (l : List α) (hl : l ≠ []) (hbs : bs ≠ 0) :
    chunkList bs l = l.take bs :: chunkList bs (l.drop bs) := by
  obtain ⟨a, l', rfl⟩ := List.exists_cons_of_ne_nil hl
  show chunkListF bs (l'.length + 1) (a :: l') = _
  simp only [chunkListF]
  congr 1
  apply chunkListF_fuel bs hbs
  · simp only [List.length_drop, List.length_cons]
    omega
  · exact le_rfl

theorem chunkList_eq_nil_iff (bs : Nat) (l : List α) (hbs : bs ≠ 0) :
    chunkList bs l = [] ↔ l = [] := by
  constructor
  · intro h
    by_contra hl
    rw [chunkList_cons bs l hl hbs] at h
    exact List.cons_ne_nil _ _ h
  · intro h
    subst h
    exact chunkList_nil bs

/-- Strong-induction workhorse for the `chunkList` lemmas. -/
theorem chunkList_induction (bs : Nat) (hbs : bs ≠ 0)
    (motive : List α → Prop) (hnil : motive [])
    (hstep : ∀ l : List α, l ≠ [] → motive (l.drop bs) → motive l) :
    ∀ l : List α, motive l := by
  have hb : 0 < bs := Nat.pos_of_ne_zero hbs
  have H : ∀ (n : Nat) (l : List α), l.length ≤ n → motive l := by
    intro n
    induction n with
    | zero =>
      intro l hl
      have : l = [] := List.length_eq_zero.mp (Nat.le_zero.mp hl)
      subst this
      exact hnil
    | succ n ih =>
      intro l hl
      rcases eq_or_ne l [] with rfl | hne
      · exact hnil
      · refine hstep l hne (ih _ ?_)
        have : 0 < l.length := List.length_pos.mpr hne
        simp only [List.length_drop]
        omega
  exact fun l => H l.length l le_rfl

/-- The concatenation of the slices is the original list: the batches are
contiguous, cover everything, and are in list order. -/
theorem chunkList_flatten (bs : Nat) (l : List α) (hbs : bs ≠ 0) :
    (chunkList bs l).flatten = l := by
  induction l using chunkList_induction bs hbs with
  | hnil => simp [chunkList_nil]
  | hstep l hne ih =>
    rw [chunkList_cons bs l hne hbs]
    simp only [List.flatten_cons, ih]
    exact List.take_append_drop _ _

/-- Every slice produced by the batching loop is non-empty and no longer
than the batch size. -/
theorem chunkList_mem_length (bs : Nat) (l : List α) (hbs : bs ≠ 0) (b : List α)
    (hmem : b ∈ chunkList bs l) : b ≠ [] ∧ b.length ≤ bs := by
  induction l using chunkList_induction bs hbs with
  | hnil => simp [chunkList_nil] at hmem
  | hstep l hne ih =>
    rw [chunkList_cons bs l hne hbs] at hmem
    rcases List.mem_cons.mp hmem with rfl | h
    · refine ⟨by simp [hne, hbs], ?_⟩
      simp [List.length_take]
    · exact ih h

/-- Every slice except possibly the last has length exactly the batch size. -/
theorem chunkList_dropLast_length (bs : Nat) (l : List α) (hbs : bs ≠ 0) (b : List α)
    (hmem : b ∈ (chunkList bs l).dropLast) : b.length = bs := by
  induction l using chunkList_induction bs hbs with
  | hnil => simp [chunkList_nil] at hmem
  | hstep l hne ih =>
    rw [chunkList_cons bs l hne hbs] at hmem
    rcases hrest : chunkList bs (l.drop bs) with _ | ⟨r, rs⟩
    · rw [hrest] at hmem
      simp at hmem
    · rw [hrest] at hmem
      rw [List.dropLast_cons₂] at hmem
      rcases List.mem_cons.mp hmem with rfl | h
      · have hd : l.drop bs ≠ [] := by
          intro hnil'
          rw [hnil', chunkList_nil] at hrest
          exact List.cons_ne_nil _ _ hrest.symm
        have hlt : bs < l.length := by
          have hp := List.length_pos.mpr hd
          simp only [List.length_drop] at hp
          omega
        simp only [List.length_take]
        omega
      · exact ih (hrest ▸ h)

/-- The number of batches is the ceiling of `l.length / bs`. -/
theorem chunkList_length (bs : Nat) (l : List α) (hbs : bs ≠ 0) :
    (chunkList bs l).length = (l.length + bs - 1) / bs := by
  induction l using chunkList_induction bs hbs with
  | hnil =>
    rw [chunkList_nil]
    have h : bs - 1 < bs := by omega
    simp [Nat.div_eq_of_lt h]
  | hstep l hne ih =>
    rw [chunkList_cons bs l hne hbs]
    simp only [List.length_cons, ih, List.length_drop]
    have hpos : 0 < l.length := List.length_pos.mpr hne
    rcases le_or_lt l.length bs with hle | hlt
    · have h1 : l.length - bs + bs - 1 = bs - 1 := by omega
      have h2 : (bs - 1) / bs = 0 := Nat.div_eq_of_lt (by omega)
      have h3 : (l.length + bs - 1) / bs = 1 :=
        Nat.div_eq_of_lt_le (by omega) (by omega)
      rw [h1, h2, h3]
    · have h1 : l.length - bs + bs - 1 = l.length - bs - 1 + bs := by omega
      have h2 : l.length + bs - 1 = l.length - bs - 1 + bs + bs := by omega
      have hbp : 0 < bs := Nat.pos_of_ne_zero hbs
      rw [h1, h2, Nat.add_div_right _ hbp, Nat.add_div_right _ hbp,
        Nat.add_div_right _ hbp]

/-! ## Helper lemmas about the validator -/

theorem processPage_fst (l : List InstanceInfo) :
    (processPage l).1
      = (l.filter (fun i => i.pingStatus == "Online")).map
          (fun i => i.instanceId) := by
  induction l with
  | nil => rfl
  | cons i rest ih =>
    by_cases h : i.pingStatus = "Online" <;>
      simp [processPage, processInstance, h, ih, List.filter_cons]

theorem processPage_warn (l : List InstanceInfo) (inst : InstanceInfo)
    (hmem : inst ∈ l) (hoff : inst.pingStatus ≠ "Online") :
    (⟨.warning, "Valid instance " ++ inst.instanceId ++ " is not online"⟩ : LogLine)
      ∈ (processPage l).2 := by
  induction l with
  | nil => simp at hmem
  | cons i rest ih =>
    rcases List.mem_cons.mp hmem with rfl | h
    · simp [processPage, processInstance, hoff]
    · by_cases hi : i.pingStatus = "Online" <;>
        simp [processPage, processInstance, hi, ih h]

theorem paginate_not_exited (s : List PageResult)
    (h : (paginate s).exited = false) :
    (paginate s).validIds
      = ((pagesConsumed s).filter (fun i => i.pingStatus == "Online")).map
          (fun i => i.instanceId)
    ∧ ∀ inst ∈ pagesConsumed s, inst.pingStatus ≠ "Online" →
        (⟨.warning, "Valid instance " ++ inst.instanceId ++ " is not online"⟩ : LogLine)
          ∈ (paginate s).logs := by
  induction s with
  | nil => exact ⟨rfl, by simp [pagesConsumed]⟩
  | cons p rest ih =>
    cases p with
    | clientError e => simp [paginate] at h
    | page instances hasNext =>
      cases hasNext with
      | false =>
        refine ⟨by simp [paginate, pagesConsumed, processPage_fst], ?_⟩
        intro inst hmem hoff
        simp only [pagesConsumed, if_neg Bool.false_ne_true] at hmem
        simpa [paginate] using processPage_warn instances inst hmem hoff
      | true =>
        have hex : (paginate rest).exited = false := by
          simpa [paginate] using h
        obtain ⟨ih1, ih2⟩ := ih hex
        have hlogs : (paginate (PageResult.page instances true :: rest)).logs
            = (processPage instances).2 ++ (paginate rest).logs := by
          simp [paginate]
        constructor
        · simp [paginate, pagesConsumed, processPage_fst, ih1,
            List.filter_append]
        · intro inst hmem hoff
          simp only [pagesConsumed, if_true] at hmem
          rw [hlogs]
          rcases List.mem_append.mp hmem with hin | hin
          · exact List.mem_append_left _ (processPage_warn instances inst hin hoff)
          · exact List.mem_append_right _ (ih2 inst hin hoff)

/-- Unfolding of the chunk loop when the first chunk's pagination exits. -/
theorem runChunks_cons_exited (c : List String) (chunks : List (List String))
    (scripts : List (List PageResult))
    (h : (paginate (scripts.headD [])).exited = true) :
    runChunks (c :: chunks) scripts = paginate (scripts.headD []) := by
  cases scripts with
  | nil =>
    simp only [List.headD_nil] at h ⊢
    simp [runChunks, h]
  | cons s ss =>
    simp only [List.headD_cons] at h ⊢
    simp [runChunks, h]

/-- Unfolding of the chunk loop when the first chunk's pagination
finishes normally. -/
theorem runChunks_cons_ok (c : List String) (chunks : List (List String))
    (scripts : List (List PageResult))
    (h : (paginate (scripts.headD [])).exited = false) :
    runChunks (c :: chunks) scripts =
      ⟨(paginate (scripts.headD [])).validIds
          ++ (runChunks chunks scripts.tail).validIds,
       (paginate (scripts.headD [])).logs
          ++ (runChunks chunks scripts.tail).logs,
       (paginate (scripts.headD [])).calls
          + (runChunks chunks scripts.tail).calls,
       (runChunks chunks scripts.tail).exited⟩ := by
  cases scripts with
  | nil =>
    simp only [List.headD_nil] at h ⊢
    simp [runChunks, h]
  | cons s ss =>
    simp only [List.headD_cons] at h ⊢
    simp [runChunks, h]

theorem runChunks_not_exited (chunks : List (List String)) :
    ∀ scripts : List (List PageResult),
      (runChunks chunks scripts).exited = false →
      (runChunks chunks scripts).validIds
        = ((seenInstances chunks scripts).filter
            (fun i => i.pingStatus == "Online")).map (fun i => i.instanceId)
      ∧ ∀ inst ∈ seenInstances chunks scripts, inst.pingStatus ≠ "Online" →
          (⟨.warning, "Valid instance " ++ inst.instanceId ++ " is not online"⟩ : LogLine)
            ∈ (runChunks chunks scripts).logs := by
  induction chunks with
  | nil =>
    intro scripts _
    exact ⟨rfl, by simp [seenInstances]⟩
  | cons c chunks ih =>
    intro scripts hex
    have hout : (paginate (scripts.headD [])).exited = false := by
      by_contra hcon
      rw [Bool.not_eq_false] at hcon
      rw [runChunks_cons_exited c chunks scripts hcon] at hex
      rw [hex] at hcon
      exact Bool.false_ne_true hcon
    rw [runChunks_cons_ok c chunks scripts hout] at hex ⊢
    have hrest : (runChunks chunks scripts.tail).exited = false := hex
    obtain ⟨hp1, hp2⟩ := paginate_not_exited _ hout
    obtain ⟨hr1, hr2⟩ := ih scripts.tail hrest
    constructor
    · show (paginate (scripts.headD [])).validIds
          ++ (runChunks chunks scripts.tail).validIds = _
      rw [hp1, hr1]
      show _ = ((pagesConsumed (scripts.headD [])
          ++ seenInstances chunks scripts.tail).filter _).map _
      rw [List.filter_append, List.map_append]
    · intro inst hmem hoff
      simp only [seenInstances] at hmem
      show _ ∈ (paginate (scripts.headD [])).logs
          ++ (runChunks chunks scripts.tail).logs
      rcases List.mem_append.mp hmem with hin | hin
      · exact List.mem_append_left _ (hp2 inst hin hoff)
      · exact List.mem_append_right _ (hr2 inst hin hoff)

/-- Unfolding of `check_instances` in terms of the chunk loop. -/
theorem check_instances_eq (ids : List String)
    (scripts : List (List PageResult)) :
    (check_instances ids scripts).validIds
        = (runChunks (chunkList 100 ids) scripts).validIds
    ∧ (check_instances ids scripts).exited
        = (runChunks (chunkList 100 ids) scripts).exited
    ∧ (check_instances ids scripts).calls
        = (runChunks (chunkList 100 ids) scripts).calls
    ∧ ∀ x ∈ (runChunks (chunkList 100 ids) scripts).logs,
        x ∈ (check_instances ids scripts).logs := by
  unfold check_instances wrapLogs
  by_cases h : (runChunks (chunkList 100 ids) scripts).exited = true
  · rw [if_pos h]
    exact ⟨rfl, rfl, rfl, fun x hx => List.mem_cons_of_mem _ hx⟩
  · rw [if_neg h]
    exact ⟨rfl, rfl, rfl,
      fun x hx => List.mem_cons_of_mem _ (List.mem_append_left _ hx)⟩

/-! ## Helper lemmas about the dispatcher and the pipeline -/

theorem dispatchBatches_all_ok (mode : Mode) (pkg : String)
    (send : Nat → SendOutcome) :
    ∀ (batches : List (List String)) (k : Nat),
      (∀ i, ∃ r, send i = .ok r) →
      (dispatchBatches mode pkg send k batches).requests
          = batches.map (buildRequest mode pkg)
      ∧ (dispatchBatches mode pkg send k batches).exitCode = none := by
  intro batches
  induction batches with
  | nil => exact fun k _ => ⟨rfl, rfl⟩
  | cons b rest ih =>
    intro k hok
    obtain ⟨r, hr⟩ := hok k
    obtain ⟨ih1, ih2⟩ := ih (k + 1) hok
    simp only [dispatchBatches, hr]
    exact ⟨by rw [List.map_cons, ih1], ih2⟩

theorem dispatchBatches_fail (mode : Mode) (pkg : String)
    (send : Nat → SendOutcome) :
    ∀ (batches : List (List String)) (k j : Nat) (e : String),
      (∀ i, i < j → ∃ r, send (k + i) = .ok r) →
      send (k + j) = .clientError e →
      j < batches.length →
      (dispatchBatches mode pkg send k batches).exitCode = some 1
      ∧ (dispatchBatches mode pkg send k batches).requests
          = (batches.take (j + 1)).map (buildRequest mode pkg)
      ∧ (⟨.error, "Error processing batch: " ++ e⟩ : LogLine)
          ∈ (dispatchBatches mode pkg send k batches).logs := by
  intro batches
  induction batches with
  | nil =>
    intro k j e _ _ hlt
    simp at hlt
  | cons b rest ih =>
    intro k j e hok herr hlt
    cases j with
    | zero =>
      rw [Nat.add_zero] at herr
      simp [dispatchBatches, herr]
    | succ j' =>
      obtain ⟨r, hr⟩ := hok 0 (Nat.succ_pos j')
      rw [Nat.add_zero] at hr
      have hok' : ∀ i, i < j' → ∃ r, send (k + 1 + i) = .ok r := by
        intro i hi
        have h := hok (i + 1) (by omega)
        rwa [show k + (i + 1) = k + 1 + i by omega] at h
      have herr' : send (k + 1 + j') = .clientError e := by
        rwa [show k + (j' + 1) = k + 1 + j' by omega] at herr
      obtain ⟨h1, h2, h3⟩ := ih (k + 1) j' e hok' herr' (by simpa using hlt)
      simp only [dispatchBatches, hr]
      refine ⟨h1, ?_, List.mem_cons_of_mem _ (List.mem_cons_of_mem _ h3)⟩
      rw [List.take_succ_cons, List.map_cons, h2]

theorem mainRun_exited (mode : Mode) (pkg : String)
    (rows : List (List String)) (scripts : List (List PageResult))
    (send : Nat → SendOutcome)
    (h : (check_instances (loadManifest rows) scripts).exited = true) :
    mainRun mode pkg rows scripts send =
      { usagePrinted := false, manifestOpened := true,
        describeCalls := (check_instances (loadManifest rows) scripts).calls,
        requests := [],
        logs := (check_instances (loadManifest rows) scripts).logs,
        exitCode := some 1 } := by
  simp [mainRun, h]

theorem mainRun_empty (mode : Mode) (pkg : String)
    (rows : List (List String)) (scripts : List (List PageResult))
    (send : Nat → SendOutcome)
    (h : (check_instances (loadManifest rows) scripts).exited = false)
    (he : (check_instances (loadManifest rows) scripts).validIds = []) :
    mainRun mode pkg rows scripts send =
      { usagePrinted := false, manifestOpened := true,
        describeCalls := (check_instances (loadManifest rows) scripts).calls,
        requests := [],
        logs := (check_instances (loadManifest rows) scripts).logs
          ++ [⟨.warning, "No valid instances found"⟩],
        exitCode := some 1 } := by
  simp [mainRun, h, he]

theorem mainRun_dispatch (mode : Mode) (pkg : String)
    (rows : List (List String)) (scripts : List (List PageResult))
    (send : Nat → SendOutcome)
    (h : (check_instances (loadManifest rows) scripts).exited = false)
    (he : (check_instances (loadManifest rows) scripts).validIds ≠ []) :
    mainRun mode pkg rows scripts send =
      { usagePrinted := false, manifestOpened := true,
        describeCalls := (check_instances (loadManifest rows) scripts).calls,
        requests := (uninstall_package mode pkg
          (check_instances (loadManifest rows) scripts).validIds send).requests,
        logs := (check_instances (loadManifest rows) scripts).logs
          ++ (uninstall_package mode pkg
            (check_instances (loadManifest rows) scripts).validIds send).logs,
        exitCode := (uninstall_package mode pkg
          (check_instances (loadManifest rows) scripts).validIds send).exitCode } := by
  simp [mainRun, h, List.isEmpty_eq_false_iff_exists_mem.mpr
    (List.exists_mem_of_ne_nil _ he)]

/-- Membership characterisation of the loaded manifest: exactly the first
fields of the non-empty rows after the header row. -/
theorem mem_loadManifest (rows : List (List String)) (x : String) :
    x ∈ loadManifest rows ↔ ∃ r ∈ rows.tail, r.head? = some x := by
  unfold loadManifest
  rw [List.mem_dedup, List.mem_filterMap]
  constructor
  · rintro ⟨r, hr, hhead⟩
    exact ⟨r, (List.mem_filter.mp hr).1, hhead⟩
  · rintro ⟨r, hr, hhead⟩
    refine ⟨r, List.mem_filter.mpr ⟨hr, ?_⟩, hhead⟩
    cases r with
    | nil => simp at hhead
    | cons a t => simp

/-! ## The claims -/

/-- C1: for every candidate identifier list, `check_instances` returns
exactly the identifiers the provider reports with `PingStatus` equal to
`"Online"` (in report order), and every identifier reported with any
other ping status is excluded and gets a warning log line, so no
recognized-but-not-online instance is dropped without a record.  (The
hypothesis restricts to runs in which no `ClientError` aborted the
process; an aborted run returns nothing at all.) -/
theorem c1_check_instances_online_filter (ids : List String)
    (scripts : List (List PageResult))
    (h : (check_instances ids scripts).exited = false) :
    (check_instances ids scripts).validIds
      = ((seenInstances (chunkList 100 ids) scripts).filter
          (fun i => i.pingStatus == "Online")).map (fun i => i.instanceId)
    ∧ ∀ inst ∈ seenInstances (chunkList 100 ids) scripts,
        inst.pingStatus ≠ "Online" →
        (⟨.warning, "Valid instance " ++ inst.instanceId ++ " is not online"⟩ : LogLine)
          ∈ (check_instances ids scripts).logs := by
  obtain ⟨hv, hx, _, hl⟩ := check_instances_eq ids scripts
  have hrun : (runChunks (chunkList 100 ids) scripts).exited = false := by
    rw [← hx]
    exact h
  obtain ⟨h1, h2⟩ := runChunks_not_exited (chunkList 100 ids) scripts hrun
  exact ⟨by rw [hv, h1], fun inst hm ho => hl _ (h2 inst hm ho)⟩

/-- Concrete run of C1: one chunk, two pages, one offline instance. -/
theorem c1_witness :
    (check_instances ["i-a", "i-b", "i-c"]
        [[.page [⟨"i-a", "Online"⟩, ⟨"i-b", "ConnectionLost"⟩] true,
          .page [⟨"i-c", "Online"⟩] false]]).exited = false
    ∧ ((check_instances ["i-a", "i-b", "i-c"]
        [[.page [⟨"i-a", "Online"⟩, ⟨"i-b", "ConnectionLost"⟩] true,
          .page [⟨"i-c", "Online"⟩] false]]).validIds
      = ((seenInstances (chunkList 100 ["i-a", "i-b", "i-c"])
          [[.page [⟨"i-a", "Online"⟩, ⟨"i-b", "ConnectionLost"⟩] true,
            .page [⟨"i-c", "Online"⟩] false]]).filter
          (fun i => i.pingStatus == "Online")).map (fun i => i.instanceId)
    ∧ ∀ inst ∈ seenInstances (chunkList 100 ["i-a", "i-b", "i-c"])
          [[.page [⟨"i-a", "Online"⟩, ⟨"i-b", "ConnectionLost"⟩] true,
            .page [⟨"i-c", "Online"⟩] false]],
        inst.pingStatus ≠ "Online" →
        (⟨.warning, "Valid instance " ++ inst.instanceId ++ " is not online"⟩ : LogLine)
          ∈ (check_instances ["i-a", "i-b", "i-c"]
              [[.page [⟨"i-a", "Online"⟩, ⟨"i-b", "ConnectionLost"⟩] true,
                .page [⟨"i-c", "Online"⟩] false]]).logs) :=
  ⟨by decide, c1_check_instances_online_filter _ _ (by decide)⟩

/-- Concrete slicing of a 125-element list by 50. -/
theorem chunkList_range125 :
    (chunkList 50 ((List.range 125).map toString)).map List.length
      = [50, 50, 25] := by
  set_option maxRecDepth 10000 in decide

/-- C2: `uninstall_package` slices an ordered non-empty list of N
validated ids into ceil(N/50) contiguous batches in list order, all of
size 50 except a possibly smaller final one, and issues exactly one
`send_command` request per batch, sequentially in batch order; 125 ids
give exactly the batch sizes 50, 50, 25 in that order. -/
theorem c2_uninstall_package_batching (mode : Mode) (pkg : String)
    (items : List String) (send : Nat → SendOutcome)
    (hne : items ≠ []) (hok : ∀ i, ∃ r, send i = .ok r) :
    (uninstall_package mode pkg items send).requests.map
        SendCommandRequest.instanceIds = chunkList 50 items
    ∧ (uninstall_package mode pkg items send).exitCode = none
    ∧ (chunkList 50 items).length = (items.length + 50 - 1) / 50
    ∧ (chunkList 50 items).flatten = items
    ∧ (∀ b ∈ (chunkList 50 items).dropLast, b.length = 50)
    ∧ (∀ b ∈ chunkList 50 items, b ≠ [] ∧ b.length ≤ 50)
    ∧ (chunkList 50 ((List.range 125).map toString)).map List.length
        = [50, 50, 25] := by
  obtain ⟨h1, h2⟩ :=
    dispatchBatches_all_ok mode pkg send (chunkList 50 items) 0 hok
  refine ⟨?_, h2, chunkList_length 50 items (by decide),
    chunkList_flatten 50 items (by decide),
    fun b hb => chunkList_dropLast_length 50 items (by decide) b hb,
    fun b hb => chunkList_mem_length 50 items (by decide) b hb,
    chunkList_range125⟩
  show (dispatchBatches mode pkg send 0 (chunkList 50 items)).requests.map _ = _
  rw [h1, List.map_map]
  have hcomp : SendCommandRequest.instanceIds ∘ buildRequest mode pkg
      = id := by
    funext b
    cases mode <;> rfl
  rw [hcomp, List.map_id]

/-- Concrete run of C2: 3 ids, a single batch, all sends succeed. -/
theorem c2_witness :
    (["i-1", "i-2", "i-3"] : List String) ≠ []
    ∧ ((uninstall_package .distributor "Rapid7Tool" ["i-1", "i-2", "i-3"]
          (fun _ => .ok ⟨"cid", "Pending"⟩)).requests.map
          SendCommandRequest.instanceIds = chunkList 50 ["i-1", "i-2", "i-3"]
    ∧ (uninstall_package .distributor "Rapid7Tool" ["i-1", "i-2", "i-3"]
          (fun _ => .ok ⟨"cid", "Pending"⟩)).exitCode = none
    ∧ (chunkList 50 ["i-1", "i-2", "i-3"]).length
        = ((["i-1", "i-2", "i-3"] : List String).length + 50 - 1) / 50
    ∧ (chunkList 50 ["i-1", "i-2", "i-3"]).flatten = ["i-1", "i-2", "i-3"]
    ∧ (∀ b ∈ (chunkList 50 ["i-1", "i-2", "i-3"]).dropLast, b.length = 50)
    ∧ (∀ b ∈ chunkList 50 ["i-1", "i-2", "i-3"], b ≠ [] ∧ b.length ≤ 50)
    ∧ (chunkList 50 ((List.range 125).map toString)).map List.length
        = [50, 50, 25]) :=
  ⟨by decide,
   c2_uninstall_package_batching .distributor "Rapid7Tool"
     ["i-1", "i-2", "i-3"] (fun _ => .ok ⟨"cid", "Pending"⟩)
     (by decide) (fun _ => ⟨⟨"cid", "Pending"⟩, rfl⟩)⟩

/-- C3: the manifest loader skips exactly the first row and returns the
deduplicated, unordered set of first-column values of the remaining
non-empty rows (membership comes only from the data rows after the
header, never from the header row itself), with no duplicates in the
result. -/
theorem c3_manifest_loader (header : List String)
    (rows : List (List String)) :
    (∀ x, x ∈ loadManifest (header :: rows)
        ↔ ∃ r ∈ rows, r ≠ [] ∧ r.head? = some x)
    ∧ (loadManifest (header :: rows)).Nodup := by
  constructor
  · intro x
    rw [mem_loadManifest]
    show (∃ r ∈ rows, r.head? = some x) ↔ _
    constructor
    · rintro ⟨r, hr, hh⟩
      refine ⟨r, hr, ?_, hh⟩
      rintro rfl
      simp at hh
    · rintro ⟨r, hr, _, hh⟩
      exact ⟨r, hr, hh⟩
  · exact List.nodup_dedup _

/-- Concrete run of C3: duplicates collapse, the blank row vanishes, the
header value is absent. -/
theorem c3_witness :
    (∀ x, x ∈ loadManifest [["InstanceId", "Name"], ["i-1", "x"], [],
        ["i-1"], ["i-2"]]
      ↔ ∃ r ∈ [(["i-1", "x"] : List String), [], ["i-1"], ["i-2"]],
          r ≠ [] ∧ r.head? = some x)
    ∧ (loadManifest [["InstanceId", "Name"], ["i-1", "x"], [], ["i-1"],
        ["i-2"]]).Nodup :=
  c3_manifest_loader ["InstanceId", "Name"] [["i-1", "x"], [], ["i-1"], ["i-2"]]

/-- C10: a data row whose first field is the empty string (e.g. a CSV
line starting with a comma) contributes the empty string as a candidate
identifier; only rows with no fields at all are dropped by the
`if row` filter — membership in the result is exactly having some
post-header row whose first field is the value. -/
theorem c10_empty_first_field (rows : List (List String)) :
    (∀ t : List String, ("" :: t) ∈ rows.tail → "" ∈ loadManifest rows)
    ∧ (∀ x : String, x ∈ loadManifest rows
        ↔ ∃ r ∈ rows.tail, r.head? = some x) := by
  refine ⟨?_, fun x => mem_loadManifest rows x⟩
  intro t ht
  exact (mem_loadManifest rows "").mpr ⟨"" :: t, ht, rfl⟩

/-- Concrete run of C10: the row `,foo` yields the candidate `""`. -/
theorem c10_witness :
    (∀ t : List String,
        ("" :: t) ∈ [["InstanceId"], ["", "foo"], []].tail →
        "" ∈ loadManifest [["InstanceId"], ["", "foo"], []])
    ∧ (∀ x : String,
        x ∈ loadManifest [["InstanceId"], ["", "foo"], []]
          ↔ ∃ r ∈ [["InstanceId"], ["", "foo"], []].tail,
              r.head? = some x) :=
  c10_empty_first_field [["InstanceId"], ["", "foo"], []]

/-- C5: a run whose validated instance set comes back empty (validation
having finished without a `ClientError`) logs the warning and exits 1
without dispatching any `send_command`; a header-only manifest moreover
reaches that exit with zero `describe_instance_information` calls, i.e.
without any provider call at all. -/
theorem c5_empty_validated_set :
    (∀ (mode : Mode) (pkg : String) (rows : List (List String))
       (scripts : List (List PageResult)) (send : Nat → SendOutcome),
      (check_instances (loadManifest rows) scripts).exited = false →
      (check_instances (loadManifest rows) scripts).validIds = [] →
      (mainRun mode pkg rows scripts send).exitCode = some 1
      ∧ (mainRun mode pkg rows scripts send).requests = []
      ∧ (⟨.warning, "No valid instances found"⟩ : LogLine)
          ∈ (mainRun mode pkg rows scripts send).logs)
    ∧ (∀ (mode : Mode) (pkg : String) (header : List String)
         (scripts : List (List PageResult)) (send : Nat → SendOutcome),
        (mainRun mode pkg [header] scripts send).describeCalls = 0
        ∧ (mainRun mode pkg [header] scripts send).exitCode = some 1
        ∧ (mainRun mode pkg [header] scripts send).requests = []
        ∧ (⟨.warning, "No valid instances found"⟩ : LogLine)
            ∈ (mainRun mode pkg [header] scripts send).logs) := by
  have hA : ∀ (mode : Mode) (pkg : String) (rows : List (List String))
      (scripts : List (List PageResult)) (send : Nat → SendOutcome),
      (check_instances (loadManifest rows) scripts).exited = false →
      (check_instances (loadManifest rows) scripts).validIds = [] →
      (mainRun mode pkg rows scripts send).exitCode = some 1
      ∧ (mainRun mode pkg rows scripts send).requests = []
      ∧ (⟨.warning, "No valid instances found"⟩ : LogLine)
          ∈ (mainRun mode pkg rows scripts send).logs := by
    intro mode pkg rows scripts send h he
    rw [mainRun_empty mode pkg rows scripts send h he]
    exact ⟨rfl, rfl, List.mem_append_right _ (List.mem_singleton.mpr rfl)⟩
  refine ⟨hA, ?_⟩
  intro mode pkg header scripts send
  have h : (check_instances (loadManifest [header]) scripts).exited = false := rfl
  have he : (check_instances (loadManifest [header]) scripts).validIds = [] := rfl
  obtain ⟨e1, e2, e3⟩ := hA mode pkg [header] scripts send h he
  refine ⟨?_, e1, e2, e3⟩
  rw [mainRun_empty mode pkg [header] scripts send h he]
  rfl

/-- Concrete runs of C5: an offline-only manifest, and a header-only
manifest. -/
theorem c5_witness :
    ((mainRun .distributor "P" [["InstanceId"], ["i-x", "n"]]
        [[.page [⟨"i-x", "ConnectionLost"⟩] false]]
        (fun _ => .ok ⟨"cid", "Pending"⟩)).exitCode = some 1
    ∧ (mainRun .distributor "P" [["InstanceId"], ["i-x", "n"]]
        [[.page [⟨"i-x", "ConnectionLost"⟩] false]]
        (fun _ => .ok ⟨"cid", "Pending"⟩)).requests = []
    ∧ (⟨.warning, "No valid instances found"⟩ : LogLine)
        ∈ (mainRun .distributor "P" [["InstanceId"], ["i-x", "n"]]
            [[.page [⟨"i-x", "ConnectionLost"⟩] false]]
            (fun _ => .ok ⟨"cid", "Pending"⟩)).logs)
    ∧ ((mainRun .powershell "Q" [["InstanceId"]] []
          (fun _ => .ok ⟨"cid", "Pending"⟩)).describeCalls = 0
    ∧ (mainRun .powershell "Q" [["InstanceId"]] []
          (fun _ => .ok ⟨"cid", "Pending"⟩)).exitCode = some 1
    ∧ (mainRun .powershell "Q" [["InstanceId"]] []
          (fun _ => .ok ⟨"cid", "Pending"⟩)).requests = []
    ∧ (⟨.warning, "No valid instances found"⟩ : LogLine)
        ∈ (mainRun .powershell "Q" [["InstanceId"]] []
            (fun _ => .ok ⟨"cid", "Pending"⟩)).logs) :=
  ⟨c5_empty_validated_set.1 .distributor "P" [["InstanceId"], ["i-x", "n"]]
      [[.page [⟨"i-x", "ConnectionLost"⟩] false]]
      (fun _ => .ok ⟨"cid", "Pending"⟩) (by decide) (by decide),
   c5_empty_validated_set.2 .powershell "Q" ["InstanceId"] []
      (fun _ => .ok ⟨"cid", "Pending"⟩)⟩

/-- C7: in both dispatch modes the CloudWatch log-group name is exactly
`"/tm/"` ++ (the package name lower-cased, then every space made a
hyphen, no other character altered) ++ `"Uninstall"`; in particular
package name `"My Tool"` yields `"/tm/my-toolUninstall"`.  (Lean's
`Char.toLower` models Python `str.lower`; `Char.toLower ' ' = ' '`, so
lowering first and then hyphenating the spaces is the per-character map
below.) -/
theorem c7_log_group_name (pkg : String) (batch : List String) (mode : Mode) :
    (buildRequest mode pkg batch).cloudWatchOutputConfig.cloudWatchLogGroupName
      = "/tm/" ++ String.mk (pkg.data.map
          (fun c => if c.toLower = ' ' then '-' else c.toLower)) ++ "Uninstall"
    ∧ (buildRequest mode "My Tool"
          batch).cloudWatchOutputConfig.cloudWatchLogGroupName
      = "/tm/my-toolUninstall" := by
  constructor
  · have hname : (buildRequest mode pkg
        batch).cloudWatchOutputConfig.cloudWatchLogGroupName
        = logGroupName pkg := by
      cases mode <;> rfl
    rw [hname]
    unfold logGroupName pyReplaceSpaceDash pyLower
    show "/tm/" ++ String.mk ((pkg.data.map Char.toLower).map
        (fun c => if c = ' ' then '-' else c)) ++ "Uninstall" = _
    rw [List.map_map]
    rfl
  · cases mode <;> rfl

/-- C9: every powershell-mode request carries exactly the fixed inline
agent-search-and-uninstall script, verbatim, independent of the
configured package name; the package name is not among the command
parameters (stated for any package name that is not itself one of the
fixed script lines). -/
theorem c9_powershell_script_fixed (pkg pkg' : String) (batch : List String)
    (h : pkg ∉ powershellCommands) :
    (buildRequest .powershell pkg batch).parameters
        = [("commands", powershellCommands)]
    ∧ (buildRequest .powershell pkg batch).documentName
        = "AWS-RunPowerShellScript"
    ∧ (buildRequest .powershell pkg batch).parameters
        = (buildRequest .powershell pkg' batch).parameters
    ∧ ∀ kv ∈ (buildRequest .powershell pkg batch).parameters, pkg ∉ kv.2 := by
  refine ⟨rfl, rfl, rfl, ?_⟩
  intro kv hkv
  have hkv' : kv = ("commands", powershellCommands) := by
    simpa [buildRequest] using hkv
  rw [hkv']
  exact h

/-- Concrete run of C9 with the real package name. -/
theorem c9_witness :
    (buildRequest .powershell "Rapid7 Insight Agent" ["i-1"]).parameters
        = [("commands", powershellCommands)]
    ∧ (buildRequest .powershell "Rapid7 Insight Agent" ["i-1"]).documentName
        = "AWS-RunPowerShellScript"
    ∧ (buildRequest .powershell "Rapid7 Insight Agent" ["i-1"]).parameters
        = (buildRequest .powershell "Other" ["i-1"]).parameters
    ∧ ∀ kv ∈ (buildRequest .powershell "Rapid7 Insight Agent"
          ["i-1"]).parameters,
        ("Rapid7 Insight Agent" : String) ∉ kv.2 :=
  c9_powershell_script_fixed "Rapid7 Insight Agent" "Other" ["i-1"] (by decide)

/-- C8 (counterexample): invoking with a manifest path but no
package-name option makes argparse print usage and terminate with exit
status 2, not 1, before the manifest is opened and before any provider
call. -/
theorem c8_counterexample :
    (runProgram ⟨some "instances.csv", none, none⟩ [] []
        (fun _ => .ok ⟨"cid", "Pending"⟩)).exitCode = some 2
    ∧ (runProgram ⟨some "instances.csv", none, none⟩ [] []
        (fun _ => .ok ⟨"cid", "Pending"⟩)).exitCode ≠ some 1
    ∧ (runProgram ⟨some "instances.csv", none, none⟩ [] []
        (fun _ => .ok ⟨"cid", "Pending"⟩)).usagePrinted = true
    ∧ (runProgram ⟨some "instances.csv", none, none⟩ [] []
        (fun _ => .ok ⟨"cid", "Pending"⟩)).manifestOpened = false
    ∧ (runProgram ⟨some "instances.csv", none, none⟩ [] []
        (fun _ => .ok ⟨"cid", "Pending"⟩)).describeCalls = 0
    ∧ (runProgram ⟨some "instances.csv", none, none⟩ [] []
        (fun _ => .ok ⟨"cid", "Pending"⟩)).requests = [] := by
  exact ⟨rfl, by decide, rfl, rfl, rfl, rfl⟩

/-- C8 (amended): for every invocation without the package-name option,
usage text is printed and the process terminates with exit status 2
(argparse's documented behaviour for a missing required argument — the
script's own `sys.exit(1)` fallback is unreachable), without opening the
manifest file and without making any provider call. -/
theorem c8_missing_package_name (c : Cmdline) (rows : List (List String))
    (scripts : List (List PageResult)) (send : Nat → SendOutcome)
    (h : c.packageName = none) :
    (runProgram c rows scripts send).exitCode = some 2
    ∧ (runProgram c rows scripts send).usagePrinted = true
    ∧ (runProgram c rows scripts send).manifestOpened = false
    ∧ (runProgram c rows scripts send).describeCalls = 0
    ∧ (runProgram c rows scripts send).requests = [] := by
  obtain ⟨f, p, m⟩ := c
  simp only at h
  subst h
  cases f <;> simp [runProgram, parseArgs]

/-- Concrete run of C8 (amended). -/
theorem c8_witness :
    (runProgram ⟨none, none, none⟩ [] []
        (fun _ => .ok ⟨"cid", "Pending"⟩)).exitCode = some 2
    ∧ (runProgram ⟨none, none, none⟩ [] []
        (fun _ => .ok ⟨"cid", "Pending"⟩)).usagePrinted = true
    ∧ (runProgram ⟨none, none, none⟩ [] []
        (fun _ => .ok ⟨"cid", "Pending"⟩)).manifestOpened = false
    ∧ (runProgram ⟨none, none, none⟩ [] []
        (fun _ => .ok ⟨"cid", "Pending"⟩)).describeCalls = 0
    ∧ (runProgram ⟨none, none, none⟩ [] []
        (fun _ => .ok ⟨"cid", "Pending"⟩)).requests = [] :=
  c8_missing_package_name ⟨none, none, none⟩ [] []
    (fun _ => .ok ⟨"cid", "Pending"⟩) rfl

/-! ## Helper lemmas for the error-propagation and pagination claims -/

theorem paginate_cons_page_true (p : List InstanceInfo)
    (rest : List PageResult) :
    paginate (.page p true :: rest)
      = ⟨(processPage p).1 ++ (paginate rest).validIds,
         (processPage p).2 ++ (paginate rest).logs,
         (paginate rest).calls + 1, (paginate rest).exited⟩ := by
  simp [paginate]

/-- A chunk script of token-carrying pages followed by a `ClientError`:
the loop walks all the pages, the failing call exits the process, the
error line is logged, and nothing after the error is ever looked at. -/
theorem paginate_error (pre : List (List InstanceInfo)) (e : String)
    (rest : List PageResult) :
    paginate (pre.map (fun p => PageResult.page p true)
        ++ .clientError e :: rest)
      = paginate (pre.map (fun p => PageResult.page p true)
          ++ [.clientError e])
    ∧ (paginate (pre.map (fun p => PageResult.page p true)
        ++ .clientError e :: rest)).exited = true
    ∧ (paginate (pre.map (fun p => PageResult.page p true)
        ++ .clientError e :: rest)).calls = pre.length + 1
    ∧ (⟨.error, "Error processing instance: " ++ e⟩ : LogLine)
        ∈ (paginate (pre.map (fun p => PageResult.page p true)
            ++ .clientError e :: rest)).logs := by
  induction pre with
  | nil => exact ⟨rfl, rfl, rfl, by simp [paginate]⟩
  | cons p ps ih =>
    obtain ⟨ih1, ih2, ih3, ih4⟩ := ih
    rw [List.map_cons, List.cons_append, List.cons_append,
      paginate_cons_page_true, paginate_cons_page_true]
    refine ⟨?_, ?_, ?_, ?_⟩
    · rw [ih1]
    · exact ih2
    · rw [ih3]
      simp
    · exact List.mem_append_right _ ih4

/-- If the pagination of some chunk exits the process, the whole chunk
loop stops there with that chunk's output appended, and nothing after
the failing call — neither the remainder of that chunk's responses nor
any later chunk — influences the result. -/
theorem runChunks_exit_congr :
    ∀ (scripts₁ : List (List PageResult)) (chunks : List (List String))
      (sc sc' : List PageResult) (scripts₂ scripts₂' : List (List PageResult)),
      scripts₁.length < chunks.length →
      (∀ s ∈ scripts₁, (paginate s).exited = false) →
      paginate sc = paginate sc' →
      (paginate sc).exited = true →
      runChunks chunks (scripts₁ ++ sc :: scripts₂)
          = runChunks chunks (scripts₁ ++ sc' :: scripts₂')
      ∧ (runChunks chunks (scripts₁ ++ sc :: scripts₂)).exited = true
      ∧ ∀ x ∈ (paginate sc).logs,
          x ∈ (runChunks chunks (scripts₁ ++ sc :: scripts₂)).logs := by
  intro scripts₁
  induction scripts₁ with
  | nil =>
    intro chunks sc sc' s2 s2' hlen hpre hcong hex
    obtain ⟨c, chunks', rfl⟩ : ∃ c cs, chunks = c :: cs := by
      cases chunks with
      | nil => simp at hlen
      | cons c cs => exact ⟨c, cs, rfl⟩
    have hd : ((sc :: s2 : List (List PageResult)).headD []) = sc :=
      List.headD_cons
    have hd' : ((sc' :: s2' : List (List PageResult)).headD []) = sc' :=
      List.headD_cons
    have h1 : runChunks (c :: chunks') (sc :: s2) = paginate sc := by
      rw [runChunks_cons_exited c chunks' (sc :: s2) (by rw [hd]; exact hex),
        hd]
    have h2 : runChunks (c :: chunks') (sc' :: s2') = paginate sc' := by
      rw [runChunks_cons_exited c chunks' (sc' :: s2')
        (by rw [hd', ← hcong]; exact hex), hd']
    refine ⟨?_, ?_, ?_⟩
    · show runChunks (c :: chunks') (sc :: s2)
          = runChunks (c :: chunks') (sc' :: s2')
      rw [h1, h2, hcong]
    · show (runChunks (c :: chunks') (sc :: s2)).exited = true
      rw [h1]
      exact hex
    · intro x hx
      show x ∈ (runChunks (c :: chunks') (sc :: s2)).logs
      rw [h1]
      exact hx
  | cons s1 s1s ih =>
    intro chunks sc sc' s2 s2' hlen hpre hcong hex
    obtain ⟨c, chunks', rfl⟩ : ∃ c cs, chunks = c :: cs := by
      cases chunks with
      | nil => simp at hlen
      | cons c cs => exact ⟨c, cs, rfl⟩
    have hs1 : (paginate s1).exited = false := hpre s1 (List.mem_cons_self s1 s1s)
    have hlen' : s1s.length < chunks'.length := by
      simp only [List.length_cons] at hlen
      omega
    obtain ⟨e1, e2, e3⟩ := ih chunks' sc sc' s2 s2' hlen'
      (fun s hs => hpre s (List.mem_cons_of_mem _ hs)) hcong hex
    have hA : runChunks (c :: chunks') ((s1 :: s1s) ++ sc :: s2)
        = ⟨(paginate s1).validIds
            ++ (runChunks chunks' (s1s ++ sc :: s2)).validIds,
           (paginate s1).logs
            ++ (runChunks chunks' (s1s ++ sc :: s2)).logs,
           (paginate s1).calls
            + (runChunks chunks' (s1s ++ sc :: s2)).calls,
           (runChunks chunks' (s1s ++ sc :: s2)).exited⟩ := by
      rw [List.cons_append]
      rw [runChunks_cons_ok c chunks' (s1 :: (s1s ++ sc :: s2))
        (by rw [List.headD_cons]; exact hs1)]
      rw [List.headD_cons]
      rfl
    have hB : runChunks (c :: chunks') ((s1 :: s1s) ++ sc' :: s2')
        = ⟨(paginate s1).validIds
            ++ (runChunks chunks' (s1s ++ sc' :: s2')).validIds,
           (paginate s1).logs
            ++ (runChunks chunks' (s1s ++ sc' :: s2')).logs,
           (paginate s1).calls
            + (runChunks chunks' (s1s ++ sc' :: s2')).calls,
           (runChunks chunks' (s1s ++ sc' :: s2')).exited⟩ := by
      rw [List.cons_append]
      rw [runChunks_cons_ok c chunks' (s1 :: (s1s ++ sc' :: s2'))
        (by rw [List.headD_cons]; exact hs1)]
      rw [List.headD_cons]
      rfl
    refine ⟨?_, ?_, ?_⟩
    · rw [hA, hB, e1]
    · rw [hA]
      exact e2
    · intro x hx
      rw [hA]
      exact List.mem_append_right _ (e3 x hx)

/-- C4: a `ClientError` is fatal everywhere.  (i) If the first j
`send_command` calls succeed and the (j+1)-st raises, the dispatcher
logs at error severity, exits 1, and has issued requests for exactly the
first j+1 batches — no later batch is dispatched.  (ii) If a validation
lookup raises (after any number of token-carrying pages, with any number
of cleanly-validated chunks before it), `check_instances` exits with the
error logged at error severity, and neither the responses after the
failing call nor any later chunk's script influence the run.  (iii) A
validation exit makes the whole run terminate with exit status 1 and no
dispatch. -/
theorem c4_client_error_fatal :
    (∀ (mode : Mode) (pkg : String) (items : List String)
       (send : Nat → SendOutcome) (j : Nat) (e : String),
      (∀ i, i < j → ∃ r, send i = .ok r) →
      send j = .clientError e →
      j < (chunkList 50 items).length →
      (uninstall_package mode pkg items send).exitCode = some 1
      ∧ (uninstall_package mode pkg items send).requests
          = ((chunkList 50 items).take (j + 1)).map (buildRequest mode pkg)
      ∧ (⟨.error, "Error processing batch: " ++ e⟩ : LogLine)
          ∈ (uninstall_package mode pkg items send).logs)
    ∧ (∀ (ids : List String) (scripts₁ : List (List PageResult))
         (pre : List (List InstanceInfo)) (e : String)
         (rest : List PageResult)
         (scripts₂ scripts₂' : List (List PageResult)),
        scripts₁.length < (chunkList 100 ids).length →
        (∀ s ∈ scripts₁, (paginate s).exited = false) →
        check_instances ids (scripts₁
            ++ (pre.map (fun p => PageResult.page p true)
                ++ .clientError e :: rest) :: scripts₂)
          = check_instances ids (scripts₁
            ++ (pre.map (fun p => PageResult.page p true)
                ++ [.clientError e]) :: scripts₂')
        ∧ (check_instances ids (scripts₁
            ++ (pre.map (fun p => PageResult.page p true)
                ++ .clientError e :: rest) :: scripts₂)).exited = true
        ∧ (⟨.error, "Error processing instance: " ++ e⟩ : LogLine)
            ∈ (check_instances ids (scripts₁
                ++ (pre.map (fun p => PageResult.page p true)
                    ++ .clientError e :: rest) :: scripts₂)).logs)
    ∧ (∀ (mode : Mode) (pkg : String) (rows : List (List String))
         (scripts : List (List PageResult)) (send : Nat → SendOutcome),
        (check_instances (loadManifest rows) scripts).exited = true →
        (mainRun mode pkg rows scripts send).exitCode = some 1
        ∧ (mainRun mode pkg rows scripts send).requests = []) := by
  refine ⟨?_, ?_, ?_⟩
  · intro mode pkg items send j e hok herr hlt
    have hok' : ∀ i, i < j → ∃ r, send (0 + i) = .ok r := by
      intro i hi
      rw [Nat.zero_add]
      exact hok i hi
    have herr' : send (0 + j) = .clientError e := by
      rw [Nat.zero_add]
      exact herr
    exact dispatchBatches_fail mode pkg send (chunkList 50 items) 0 j e
      hok' herr' hlt
  · intro ids scripts₁ pre e rest scripts₂ scripts₂' hlen hpre
    obtain ⟨p1, p2, _, p4⟩ := paginate_error pre e rest
    obtain ⟨g1, g2, g3⟩ := runChunks_exit_congr scripts₁ (chunkList 100 ids)
      (pre.map (fun p => PageResult.page p true) ++ .clientError e :: rest)
      (pre.map (fun p => PageResult.page p true) ++ [.clientError e])
      scripts₂ scripts₂' hlen hpre p1 p2
    obtain ⟨_, hx, _, hl⟩ := check_instances_eq ids (scripts₁
      ++ (pre.map (fun p => PageResult.page p true)
          ++ .clientError e :: rest) :: scripts₂)
    refine ⟨?_, ?_, ?_⟩
    · show wrapLogs ids _ = wrapLogs ids _
      rw [g1]
    · rw [hx]
      exact g2
    · exact hl _ (g3 _ p4)
  · intro mode pkg rows scripts send h
    rw [mainRun_exited mode pkg rows scripts send h]
    exact ⟨rfl, rfl⟩

/-- Concrete runs of C4: a dispatch failure on the second of two
batches after 51 validated ids, and a validation failure on the second
call of the first chunk. -/
theorem c4_witness :
    ((uninstall_package .distributor "P"
        ((List.range 51).map toString) sendFailsSecond).exitCode = some 1
    ∧ (uninstall_package .distributor "P"
        ((List.range 51).map toString) sendFailsSecond).requests
        = ((chunkList 50 ((List.range 51).map toString)).take (1 + 1)).map
            (buildRequest .distributor "P")
    ∧ (⟨.error, "Error processing batch: " ++ "boom"⟩ : LogLine)
        ∈ (uninstall_package .distributor "P"
            ((List.range 51).map toString) sendFailsSecond).logs)
    ∧ (check_instances ["i-1"]
        ([] ++ ([[⟨"i-1", "Online"⟩]].map (fun p => PageResult.page p true)
            ++ .clientError "denied"
              :: [.page [⟨"i-unreachable", "Online"⟩] false]) :: [])
          = check_instances ["i-1"]
        ([] ++ ([[⟨"i-1", "Online"⟩]].map (fun p => PageResult.page p true)
            ++ [.clientError "denied"]) :: [])
    ∧ (check_instances ["i-1"]
        ([] ++ ([[⟨"i-1", "Online"⟩]].map (fun p => PageResult.page p true)
            ++ .clientError "denied"
              :: [.page [⟨"i-unreachable", "Online"⟩] false]) :: [])).exited
        = true
    ∧ (⟨.error, "Error processing instance: " ++ "denied"⟩ : LogLine)
        ∈ (check_instances ["i-1"]
            ([] ++ ([[⟨"i-1", "Online"⟩]].map
                (fun p => PageResult.page p true)
              ++ .clientError "denied"
                :: [.page [⟨"i-unreachable", "Online"⟩] false]) :: [])).logs)
    ∧ ((mainRun .distributor "P" [["InstanceId"], ["i-1", "x"]]
          [[.clientError "denied"]] (fun _ => .ok ⟨"cid", "Pending"⟩)).exitCode
          = some 1
    ∧ (mainRun .distributor "P" [["InstanceId"], ["i-1", "x"]]
          [[.clientError "denied"]]
          (fun _ => .ok ⟨"cid", "Pending"⟩)).requests = []) := by
  obtain ⟨hd, hc, hm⟩ := c4_client_error_fatal
  refine ⟨hd .distributor "P" ((List.range 51).map toString)
      sendFailsSecond 1 "boom" ?_ rfl ?_,
    hc ["i-1"] [] [[⟨"i-1", "Online"⟩]] "denied"
      [.page [⟨"i-unreachable", "Online"⟩] false] [] [] ?_ ?_,
    hm .distributor "P" [["InstanceId"], ["i-1", "x"]]
      [[.clientError "denied"]] (fun _ => .ok ⟨"cid", "Pending"⟩) (by decide)⟩
  · intro i hi
    interval_cases i
    exact ⟨⟨"cid", "Pending"⟩, rfl⟩
  · show 1 < (chunkList 50 ((List.range 51).map toString)).length
    set_option maxRecDepth 10000 in decide
  · decide
  · intro s hs
    simp at hs

/-- A chunk script of token-carrying pages ending in a token-free page:
the loop issues exactly one call per page up to and including the first
token-free one, then stops — responses beyond it are never requested. -/
theorem paginate_pages (pre : List (List InstanceInfo))
    (last : List InstanceInfo) (rest : List PageResult) :
    paginate (pre.map (fun p => PageResult.page p true)
        ++ .page last false :: rest)
      = paginate (pre.map (fun p => PageResult.page p true)
          ++ [.page last false])
    ∧ (paginate (pre.map (fun p => PageResult.page p true)
        ++ .page last false :: rest)).calls = pre.length + 1
    ∧ (paginate (pre.map (fun p => PageResult.page p true)
        ++ .page last false :: rest)).exited = false := by
  induction pre with
  | nil => exact ⟨rfl, rfl, rfl⟩
  | cons p ps ih =>
    obtain ⟨ih1, ih2, ih3⟩ := ih
    rw [List.map_cons, List.cons_append, List.cons_append,
      paginate_cons_page_true, paginate_cons_page_true]
    refine ⟨?_, ?_, ?_⟩
    · rw [ih1]
    · rw [ih2]
      simp
    · exact ih3

theorem headD_getD_zero (scripts : List (List PageResult)) :
    scripts.headD ([] : List PageResult) = scripts.getD 0 [] := by
  cases scripts <;> simp [List.getD]

theorem tail_getD (scripts : List (List PageResult)) (i : Nat) :
    scripts.tail.getD i [] = scripts.getD (i + 1) [] := by
  cases scripts <;> simp [List.getD]

/-- When no chunk exits the process, the accumulated `valid_ids` is the
concatenation, chunk index by chunk index, of each chunk's pagination
result. -/
theorem runChunks_validIds_flatten (chunks : List (List String)) :
    ∀ scripts : List (List PageResult),
      (runChunks chunks scripts).exited = false →
      (runChunks chunks scripts).validIds
        = ((List.range chunks.length).map
            (fun i => (paginate (scripts.getD i [])).validIds)).flatten := by
  induction chunks with
  | nil =>
    intro scripts _
    rfl
  | cons c cs ih =>
    intro scripts hex
    have hout : (paginate (scripts.headD [])).exited = false := by
      by_contra hcon
      rw [Bool.not_eq_false] at hcon
      rw [runChunks_cons_exited c cs scripts hcon] at hex
      rw [hex] at hcon
      exact Bool.false_ne_true hcon
    rw [runChunks_cons_ok c cs scripts hout] at hex ⊢
    have hrest : (runChunks cs scripts.tail).exited = false := hex
    show (paginate (scripts.headD [])).validIds
        ++ (runChunks cs scripts.tail).validIds = _
    rw [ih scripts.tail hrest, List.length_cons, List.range_succ_eq_map,
      List.map_cons, List.flatten_cons, List.map_map]
    congr 1
    · rw [headD_getD_zero]
    · congr 1
      apply List.map_congr_left
      intro i _
      show (paginate (scripts.tail.getD i [])).validIds = _
      rw [tail_getD]
      rfl

/-- C6: the validator pre-chunks the candidates into contiguous batches
of at most 100 ids; per chunk it issues one lookup per page, re-issuing
with the continuation token exactly while one is returned and stopping
at the first token-free response (later responses are never requested);
and the valid ids of all pages of all chunks are accumulated, in chunk
order, into one merged result. -/
theorem c6_chunked_pagination (ids : List String)
    (scripts : List (List PageResult)) :
    ((chunkList 100 ids).flatten = ids
      ∧ ∀ b ∈ chunkList 100 ids, b ≠ [] ∧ b.length ≤ 100)
    ∧ (∀ (pre : List (List InstanceInfo)) (last : List InstanceInfo)
         (rest : List PageResult),
        paginate (pre.map (fun p => PageResult.page p true)
            ++ .page last false :: rest)
          = paginate (pre.map (fun p => PageResult.page p true)
              ++ [.page last false])
        ∧ (paginate (pre.map (fun p => PageResult.page p true)
            ++ .page last false :: rest)).calls = pre.length + 1
        ∧ (paginate (pre.map (fun p => PageResult.page p true)
            ++ .page last false :: rest)).exited = false)
    ∧ ((check_instances ids scripts).exited = false →
        (check_instances ids scripts).validIds
          = ((List.range (chunkList 100 ids).length).map
              (fun i => (paginate (scripts.getD i [])).validIds)).flatten) := by
  refine ⟨⟨chunkList_flatten 100 ids (by decide),
    fun b hb => chunkList_mem_length 100 ids (by decide) b hb⟩,
    fun pre last rest => paginate_pages pre last rest, ?_⟩
  intro h
  obtain ⟨hv, hx, _, _⟩ := check_instances_eq ids scripts
  have hrun : (runChunks (chunkList 100 ids) scripts).exited = false := by
    rw [← hx]
    exact h
  rw [hv, runChunks_validIds_flatten (chunkList 100 ids) scripts hrun]

/-- Concrete run of C6: two chunks' worth of structure on a two-page
script. -/
theorem c6_witness :
    ((chunkList 100 ["i-1", "i-2"]).flatten = ["i-1", "i-2"]
      ∧ ∀ b ∈ chunkList 100 ["i-1", "i-2"], b ≠ [] ∧ b.length ≤ 100)
    ∧ (paginate ([[⟨"i-1", "Online"⟩]].map (fun p => PageResult.page p true)
          ++ .page [⟨"i-2", "ConnectionLost"⟩] false
            :: [.clientError "never-requested"])
        = paginate ([[⟨"i-1", "Online"⟩]].map (fun p => PageResult.page p true)
            ++ [.page [⟨"i-2", "ConnectionLost"⟩] false])
      ∧ (paginate ([[⟨"i-1", "Online"⟩]].map (fun p => PageResult.page p true)
          ++ .page [⟨"i-2", "ConnectionLost"⟩] false
            :: [.clientError "never-requested"])).calls
          = ([[⟨"i-1", "Online"⟩]] : List (List InstanceInfo)).length + 1
      ∧ (paginate ([[⟨"i-1", "Online"⟩]].map (fun p => PageResult.page p true)
          ++ .page [⟨"i-2", "ConnectionLost"⟩] false
            :: [.clientError "never-requested"])).exited = false)
    ∧ (check_instances ["i-1", "i-2"]
          [[.page [⟨"i-1", "Online"⟩] true, .page [⟨"i-2", "Online"⟩] false]]).validIds
        = ((List.range (chunkList 100 ["i-1", "i-2"]).length).map
            (fun i => (paginate (([[.page [⟨"i-1", "Online"⟩] true,
                .page [⟨"i-2", "Online"⟩] false]] : List (List PageResult)).getD
                  i [])).validIds)).flatten := by
  obtain ⟨h1, h2, h3⟩ := c6_chunked_pagination ["i-1", "i-2"]
    [[.page [⟨"i-1", "Online"⟩] true, .page [⟨"i-2", "Online"⟩] false]]
  exact ⟨h1, h2 [[⟨"i-1", "Online"⟩]] [⟨"i-2", "ConnectionLost"⟩]
    [.clientError "never-requested"], h3 (by decide)⟩

end Uninstall
